import Mathlib

/-!
Shallow embedding of the MCP-freeCAD core pipeline (intent parser, design
generator, safety validator, execution broker, feedback collector,
orchestrator) together with proofs of the specification claims.

Modelling conventions:
* TypeScript strings are Lean `String`s; per-character operations
  (`toLowerCase`, keyword search) are modelled on `String.data`.
* TypeScript `number` is modelled as `Int` (every claim here depends only
  on value identity / zero-ness, never on float formatting or rounding).
* Template-literal interpolation is modelled by explicit `++` with
  `toString` for numbers (`numStr`).
* `Math.random`-based id generation and `new Date()` are modelled by
  explicit `newId` / `nowIso` parameters.
* Possibly-throwing stages are modelled by `Except String`-valued stage
  functions; the orchestrator is parameterised over them so that its
  exception containment is provable.
-/

namespace MCP

/-! ## Basic string helpers -/

/-- Per-character lower-casing, mirroring JS `String.prototype.toLowerCase`
restricted to basic latin (the only case the repo exercises). -/
def lowerStr (s : String) : String := ⟨s.data.map Char.toLower⟩

/-- `startsList pat l` is true iff `l` begins with `pat`. -/
def startsList : List Char → List Char → Bool
  | [], _ => true
  | _ :: _, [] => false
  | c :: cs, d :: ds => c == d && startsList cs ds

/-- `endsList pat l` is true iff `l` ends with `pat`. -/
def endsList (pat l : List Char) : Bool := startsList pat.reverse l.reverse

/-- `occursIn pat l` is true iff `pat` occurs contiguously somewhere in `l`
(JS `String.prototype.includes`). -/
def occursIn (pat : List Char) : List Char → Bool
  | [] => startsList pat []
  | l@(_ :: rest) => startsList pat l || occursIn pat rest

/-- JS `s.includes(pat)`. -/
def containsSub (s pat : String) : Bool := occursIn pat.data s.data

/-- JS `Array.prototype.join(sep)`. -/
def joinSep (sep : String) : List String → String
  | [] => ""
  | [s] => s
  | s :: rest => s ++ sep ++ joinSep sep rest

/-- Rendering of a number into generated code (template-literal
interpolation of a TS `number`, modelled on `Int`). -/
def numStr (n : Int) : String := toString n

/-- JS `s.charAt(0).toUpperCase() + s.slice(1)`. -/
def capitalizeStr (s : String) : String :=
  match s.data with
  | [] => ⟨[]⟩
  | c :: cs => ⟨c.toUpper :: cs⟩

/-! ## Schema (src/lib/mcp/schema.ts) -/

/-- A parameter value: TS `number | string`. -/
inductive Value where
  | num : Int → Value
  | str : String → Value
deriving DecidableEq, Repr

/-- TS `'cube' | 'sphere' | 'cylinder' | 'cone' | 'torus'`. -/
inductive PrimType where
  | cube | sphere | cylinder | cone | torus
deriving DecidableEq, Repr

/-- TS `'union' | 'difference' | 'intersection' | 'fillet' | 'chamfer'`. -/
inductive OpType where
  | union | difference | intersection | fillet | chamfer
deriving DecidableEq, Repr

structure Position where
  x : Int
  y : Int
  z : Int
deriving DecidableEq, Repr

structure Rotation where
  x : Int
  y : Int
  z : Int
deriving DecidableEq, Repr

structure PrimitiveShape where
  id : String
  type : PrimType
  parameters : List (String × Value)
  position : Option Position := none
  rotation : Option Rotation := none
deriving DecidableEq, Repr

structure Operation where
  type : OpType
  targetIds : List String
  parameters : Option (List (String × Value)) := none
deriving DecidableEq, Repr

structure DesignMetadata where
  name : String
  description : String
  author : String
  createdAt : String
  units : String
deriving DecidableEq, Repr

structure StructuredDesign where
  primitives : List PrimitiveShape
  operations : List Operation
  metadata : DesignMetadata
deriving DecidableEq, Repr

structure DesignConstraint where
  type : String
  parameter : String
  value : Value
  unit : Option String := none
deriving DecidableEq, Repr

structure DesignIntent where
  prompt : String
  contextId : String
  constraints : Option (List DesignConstraint) := none
deriving DecidableEq, Repr

structure FreeCADScript where
  code : String
  imports : List String
  safeToExecute : Bool
deriving DecidableEq, Repr

structure ExecutionResult where
  success : Bool
  objectIds : Option (List String) := none
  errorMessage : Option String := none
  warnings : Option (List String) := none
  renderUrl : Option String := none
deriving DecidableEq, Repr

structure SuggestedAction where
  type : String
  description : String
deriving DecidableEq, Repr

structure UserFeedback where
  status : String
  message : String
  details : Option String := none
  suggestedActions : Option (List SuggestedAction) := none
deriving DecidableEq, Repr

/-! ## Parameter access and JS truthiness -/

/-- Object-property lookup on a parameters record. -/
def lookupParam (ps : List (String × Value)) (k : String) : Option Value :=
  (ps.find? (fun kv => kv.1 == k)).map (fun kv => kv.2)

/-- Interpolation of a possibly-missing parameter: a missing property is
`undefined` and interpolates as the text `undefined`. -/
def renderValue : Value → String
  | .num n => numStr n
  | .str s => s

def renderOpt : Option Value → String
  | some v => renderValue v
  | none => "undefined"

/-- JS `x || d` on an optional parameter value: `undefined`, `0` and the
empty string are falsy. -/
def jsOr : Option Value → Value → Value
  | none, d => d
  | some (.num n), d => if n = 0 then d else .num n
  | some (.str s), d => if s = "" then d else .str s

/-- JS `x || d` for an optional string. -/
def jsOrStr : Option String → String → String
  | none, d => d
  | some s, d => if s = "" then d else s

/-- `operation.parameters?.k`. -/
def optParam (op : Operation) (k : String) : Option Value :=
  match op.parameters with
  | some ps => lookupParam ps k
  | none => none

/-! ## Design generator (design-generator.ts) -/

def primTypeName : PrimType → String
  | .cube => "cube"
  | .sphere => "sphere"
  | .cylinder => "cylinder"
  | .cone => "cone"
  | .torus => "torus"

def opTypeName : OpType → String
  | .union => "union"
  | .difference => "difference"
  | .intersection => "intersection"
  | .fillet => "fillet"
  | .chamfer => "chamfer"

/-- The single shape-creation statement of `generatePrimitiveCode`
(the `switch (primitive.type)` block). -/
def creationStmt (p : PrimitiveShape) : String :=
  match p.type with
  | .cube =>
      p.id ++ " = Part.makeBox(" ++ renderOpt (lookupParam p.parameters "length") ++ ", "
        ++ renderOpt (lookupParam p.parameters "width") ++ ", "
        ++ renderOpt (lookupParam p.parameters "height") ++ ")"
  | .sphere =>
      p.id ++ " = Part.makeSphere(" ++ renderOpt (lookupParam p.parameters "radius") ++ ")"
  | .cylinder =>
      p.id ++ " = Part.makeCylinder(" ++ renderOpt (lookupParam p.parameters "radius") ++ ", "
        ++ renderOpt (lookupParam p.parameters "height") ++ ")"
  | .cone =>
      p.id ++ " = Part.makeCone(" ++ renderOpt (lookupParam p.parameters "radius1") ++ ", "
        ++ renderValue (jsOr (lookupParam p.parameters "radius2") (.num 0)) ++ ", "
        ++ renderOpt (lookupParam p.parameters "height") ++ ")"
  | .torus =>
      p.id ++ " = Part.makeTorus(" ++ renderOpt (lookupParam p.parameters "radius1") ++ ", "
        ++ renderOpt (lookupParam p.parameters "radius2") ++ ")"

/-- The translation statement, emitted when `primitive.position` is set. -/
def posLines (p : PrimitiveShape) : List String :=
  match p.position with
  | some pos =>
      [p.id ++ ".translate(Base.Vector(" ++ numStr pos.x ++ ", " ++ numStr pos.y ++ ", "
        ++ numStr pos.z ++ "))"]
  | none => []

/-- The three single-axis rotation statements, emitted when
`primitive.rotation` is set: X axis first, then Y, then Z. -/
def rotLines (p : PrimitiveShape) : List String :=
  match p.rotation with
  | some rot =>
      [p.id ++ ".rotate(Base.Vector(0,0,0), Base.Vector(1,0,0), " ++ numStr rot.x ++ ")",
       p.id ++ ".rotate(Base.Vector(0,0,0), Base.Vector(0,1,0), " ++ numStr rot.y ++ ")",
       p.id ++ ".rotate(Base.Vector(0,0,0), Base.Vector(0,0,1), " ++ numStr rot.z ++ ")"]
  | none => []

/-- The document-object binding statements closing `generatePrimitiveCode`. -/
def objLines (p : PrimitiveShape) : List String :=
  ["shape_obj = doc.addObject(\"Part::Feature\", \"" ++ capitalizeStr (primTypeName p.type) ++ "\")",
   "shape_obj.Shape = " ++ p.id]

def generatePrimitiveCode (p : PrimitiveShape) : List String :=
  creationStmt p :: (posLines p ++ rotLines p ++ objLines p)

/-- `result_${operation.type}_${operation.targetIds.join('_')}`. -/
def resultName (op : Operation) : String :=
  "result_" ++ opTypeName op.type ++ "_" ++ joinSep "_" op.targetIds

/-- `operation.targetIds[0]` (interpolates as `undefined` when absent). -/
def tgt0 (op : Operation) : String :=
  match op.targetIds with
  | [] => "undefined"
  | t :: _ => t

/-- The single combinator / edge-operation statement of
`generateOperationCode` (the `switch (operation.type)` block). -/
def opStmt (op : Operation) : String :=
  match op.type with
  | .union =>
      resultName op ++ " = " ++ tgt0 op ++ ".fuse(" ++ joinSep ", " (op.targetIds.drop 1) ++ ")"
  | .difference =>
      resultName op ++ " = " ++ tgt0 op ++ ".cut(" ++ joinSep ", " (op.targetIds.drop 1) ++ ")"
  | .intersection =>
      resultName op ++ " = " ++ tgt0 op ++ ".common(" ++ joinSep ", " (op.targetIds.drop 1) ++ ")"
  | .fillet =>
      resultName op ++ " = " ++ tgt0 op ++ ".makeFillet("
        ++ renderValue (jsOr (optParam op "radius") (.num 1)) ++ ", " ++ tgt0 op ++ ".Edges)"
  | .chamfer =>
      resultName op ++ " = " ++ tgt0 op ++ ".makeChamfer("
        ++ renderValue (jsOr (optParam op "distance") (.num 1)) ++ ", " ++ tgt0 op ++ ".Edges)"

/-- The document-object binding statements closing `generateOperationCode`. -/
def opObjLines (op : Operation) : List String :=
  ["result_obj = doc.addObject(\"Part::Feature\", \"" ++ capitalizeStr (opTypeName op.type) ++ "\")",
   "result_obj.Shape = " ++ resultName op]

def generateOperationCode (op : Operation) : List String :=
  opStmt op :: opObjLines op

def freeCADImports : List String :=
  ["import FreeCAD as App", "import Part", "from FreeCAD import Base"]

def freeCADHeader : List String :=
  freeCADImports ++ ["", "# Create a new document", "doc = App.newDocument()", ""]

/-- One primitive's contribution to the code-line list. -/
def primChunk (p : PrimitiveShape) : List String :=
  ("# Create " ++ primTypeName p.type) :: (generatePrimitiveCode p ++ [""])

/-- One operation's contribution to the code-line list. -/
def opChunk (op : Operation) : List String :=
  generateOperationCode op ++ [""]

def opsSection (ops : List Operation) : List String :=
  if ops.length > 0 then "# Apply operations" :: (ops.map opChunk).flatten else []

/-- `design.metadata.name.replace(/[^a-zA-Z0-9]/g, '_')`. -/
def sanitizeName (s : String) : String :=
  ⟨s.data.map (fun c => if c.isAlphanum then c else '_')⟩

def footerLines (design : StructuredDesign) : List String :=
  ["# Recompute the document", "doc.recompute()", "",
   "# Save the document (optional)",
   "# doc.saveAs(\"" ++ sanitizeName design.metadata.name ++ ".FCStd\")"]

/-- The complete line list built by `generateFreeCADCode`. -/
def generatedCodeLines (design : StructuredDesign) : List String :=
  freeCADHeader ++ (design.primitives.map primChunk).flatten
    ++ opsSection design.operations ++ footerLines design

def generateFreeCADCode (design : StructuredDesign) : FreeCADScript :=
  { code := joinSep "\n" (generatedCodeLines design),
    imports := freeCADImports,
    safeToExecute := true }

/-- The fixed denylist of `validateScriptSafety`. -/
def dangerousPatterns : List String :=
  ["import os", "import sys", "import subprocess", "exec(", "eval(", "execfile(",
   "__import__", "open(", "file(", "system(", "popen("]

def validateScriptSafety (script : FreeCADScript) : Bool :=
  let code := lowerStr script.code
  !(dangerousPatterns.any (fun pat => containsSub code (lowerStr pat)))

/-! ## Execution engine (execution-engine.ts) -/

/-- The fixed failure result returned when `executeScript` rejects an
unsafe script. -/
def unsafeScriptResult : ExecutionResult :=
  { success := false,
    errorMessage := some "Script contains potentially unsafe operations and cannot be executed.",
    warnings := some ["Potentially unsafe code detected."] }

/-- The canned success reply of the mock engine. -/
def mockSuccessResult : ExecutionResult :=
  { success := true,
    objectIds := some ["Object001", "Object002"],
    renderUrl := some "/models/cube-render.png",
    warnings := some [] }

/-- `executeScript`, parameterised over the external engine so that the
safety short-circuit is provably engine-independent. -/
def executeScriptWith (engine : FreeCADScript → ExecutionResult) (script : FreeCADScript) :
    ExecutionResult :=
  if validateScriptSafety script then engine script else unsafeScriptResult

def executeScript (script : FreeCADScript) : ExecutionResult :=
  executeScriptWith (fun _ => mockSuccessResult) script

/-! ## Intent parser (intent-parser.ts) -/

/-- `parseInt(digits, 10)`. -/
def digitsToNat (ds : List Char) : Nat :=
  ds.foldl (fun n c => 10 * n + (c.toNat - '0'.toNat)) 0

/-- Alternatives of the unit group of `/(\d+)(?:\s*)(mm|cm|m|inch|in)?/`,
in the order the regex engine tries them. -/
def unitAlternatives : List String := ["mm", "cm", "m", "inch", "in"]

/-- First match of `/(\d+)(?:\s*)(mm|cm|m|inch|in)?/`: the match starts at
the first digit, `\d+` is greedy, `\s*` is greedy, and the optional unit
group takes the first alternative that fits. -/
def extractDimension (prompt : String) : Option (Nat × Option String) :=
  let fromDigit := prompt.data.dropWhile (fun c => !c.isDigit)
  match fromDigit with
  | [] => none
  | _ =>
    let digits := fromDigit.takeWhile Char.isDigit
    let after := (fromDigit.dropWhile Char.isDigit).dropWhile Char.isWhitespace
    some (digitsToNat digits, unitAlternatives.find? (fun u => startsList u.data after))

/-- `parseDesignIntent`, with the random id and current timestamp passed
in explicitly.  (For odd sizes JS computes the float `size / 2`; the
integer model uses integer division — no claim depends on the quotient.) -/
def parseDesignIntent (newId nowIso : String) (intent : DesignIntent) :
    StructuredDesign ⊕ UserFeedback :=
  let prompt := lowerStr intent.prompt
  let dim := extractDimension prompt
  let size : Int := match dim with | some (n, _) => (n : Int) | none => 10
  let unit : String := match dim with | some (_, some u) => u | _ => "mm"
  let metadata : DesignMetadata :=
    { name := "Design from \"" ++ intent.prompt ++ "\"",
      description := intent.prompt,
      author := "MCP User",
      createdAt := nowIso,
      units := "mm" }
  if containsSub prompt "cube" || containsSub prompt "box" then
    .inl { primitives := [{ id := newId, type := .cube,
                            parameters := [("length", .num size), ("width", .num size),
                                           ("height", .num size), ("unit", .str unit)] }],
           operations := [], metadata := metadata }
  else if containsSub prompt "sphere" then
    .inl { primitives := [{ id := newId, type := .sphere,
                            parameters := [("radius", .num (size / 2)), ("unit", .str unit)] }],
           operations := [], metadata := metadata }
  else if containsSub prompt "cylinder" then
    .inl { primitives := [{ id := newId, type := .cylinder,
                            parameters := [("radius", .num (size / 2)), ("height", .num size),
                                           ("unit", .str unit)] }],
           operations := [], metadata := metadata }
  else
    .inr { status := "clarification",
           message := "Could not determine what shape to create.",
           details := some "Please specify a shape type such as \"cube\", \"sphere\", or \"cylinder\".",
           suggestedActions := some [{ type := "clarify", description := "Specify a primitive shape" }] }

def shapeKeywords : List String := ["cube", "box", "sphere", "cylinder", "cone", "torus"]

def needsClarification (intent : DesignIntent) : Bool :=
  let prompt := lowerStr intent.prompt
  if prompt.length < 5 then true
  else if !(shapeKeywords.any (fun k => containsSub prompt k)) then true
  else !(prompt.data.any Char.isDigit)

def shapeQuestion : String := "What shape would you like to create?"

def dimensionQuestion : String := "What dimensions should the shape have?"

def generateClarificationQuestions (intent : DesignIntent) : List String :=
  let prompt := lowerStr intent.prompt
  (if !(shapeKeywords.any (fun k => containsSub prompt k)) then [shapeQuestion] else [])
    ++ (if !(prompt.data.any Char.isDigit) then [dimensionQuestion] else [])

/-! ## Feedback collector (feedback-collector.ts) -/

def getSuggestedActionsForSuccess (result : ExecutionResult) : List SuggestedAction :=
  [{ type := "accept", description := "Use this model" }]
    ++ (match result.warnings with
        | some (_ :: _) => [{ type := "modify", description := "Modify design to address warnings" }]
        | _ => [])

def getSuggestedActionsForFailure (_result : ExecutionResult) : List SuggestedAction :=
  [{ type := "regenerate", description := "Try again with simplified geometry" },
   { type := "modify", description := "Modify design parameters" },
   { type := "clarify", description := "Provide more details about the design" }]

def generateUserFeedback (result : ExecutionResult) : UserFeedback :=
  if result.success then
    { status := "success",
      message := "Model created successfully!",
      details := some (match result.warnings with
        | some (w :: ws) => "Model created with " ++ toString (w :: ws).length ++ " warning(s)."
        | _ => "The model was created without any warnings."),
      suggestedActions := some (getSuggestedActionsForSuccess result) }
  else
    { status := "error",
      message := "Failed to create model.",
      details := some (jsOrStr result.errorMessage "An unknown error occurred during execution."),
      suggestedActions := some (getSuggestedActionsForFailure result) }

def formatErrorMessage (errorMessage : String) : String :=
  if containsSub errorMessage "TopoDS_Shape is null" then
    "The design resulted in an invalid shape. Try simplifying your geometry."
  else if containsSub errorMessage "out of bounds" then
    "One or more parameters are out of the allowed range. Check your dimensions."
  else errorMessage

/-! ## Orchestrator (index.ts) -/

structure MCPResult where
  structuredDesign : Option StructuredDesign := none
  script : Option FreeCADScript := none
  executionResult : Option ExecutionResult := none
  feedback : UserFeedback
deriving DecidableEq, Repr

/-- The generic failure feedback produced by the orchestrator's `catch`. -/
def genericPipelineError (details : String) : UserFeedback :=
  { status := "error",
    message := "An unexpected error occurred while processing your design.",
    details := some details,
    suggestedActions := some [{ type := "regenerate", description := "Try again with a simpler design" }] }

/-- The pipeline stages, each allowed to throw (`Except.error`). -/
structure Stages where
  needsClar : DesignIntent → Except String Bool
  clarQuestions : DesignIntent → Except String (List String)
  parse : DesignIntent → Except String (StructuredDesign ⊕ UserFeedback)
  gen : StructuredDesign → Except String FreeCADScript
  validate : FreeCADScript → Except String Bool
  exec : FreeCADScript → Except String ExecutionResult
  fb : ExecutionResult → Except String UserFeedback

/-- The `try` block of `processDesignIntent`. -/
def pipelineCore (S : Stages) (intent : DesignIntent) : Except String MCPResult := do
  let nc ← S.needsClar intent
  if nc then
    let questions ← S.clarQuestions intent
    return { feedback :=
      { status := "clarification",
        message := "Your design intent needs more details.",
        details := some "Please provide additional information to create your model.",
        suggestedActions := some (questions.map (fun q => { type := "clarify", description := q })) } }
  else
    let parsed ← S.parse intent
    match parsed with
    | .inr fb => return { feedback := fb }
    | .inl design =>
      let script ← S.gen design
      let ok ← S.validate script
      if !ok then
        return { structuredDesign := some design, script := some script,
                 feedback :=
                   { status := "error",
                     message := "Generated code contains unsafe operations.",
                     details := some "The system detected potentially dangerous operations in the generated code.",
                     suggestedActions := some [{ type := "modify",
                                                 description := "Modify your design intent to avoid unsafe operations." }] } }
      else
        let execResult ← S.exec script
        let feedback ← S.fb execResult
        return { structuredDesign := some design, script := some script,
                 executionResult := some execResult, feedback := feedback }

/-- `processDesignIntent` with its `try/catch` boundary, over arbitrary
(possibly-throwing) stages. -/
def processDesignIntentWith (S : Stages) (intent : DesignIntent) : MCPResult :=
  match pipelineCore S intent with
  | .ok r => r
  | .error e => { feedback := genericPipelineError e }

/-- The concrete stages of the repository. -/
def mcpStages (newId nowIso : String) : Stages :=
  { needsClar := fun i => .ok (needsClarification i),
    clarQuestions := fun i => .ok (generateClarificationQuestions i),
    parse := fun i => .ok (parseDesignIntent newId nowIso i),
    gen := fun d => .ok (generateFreeCADCode d),
    validate := fun s => .ok (validateScriptSafety s),
    exec := fun s => .ok (executeScript s),
    fb := fun r => .ok (generateUserFeedback r) }

def processDesignIntent (newId nowIso : String) (intent : DesignIntent) : MCPResult :=
  processDesignIntentWith (mcpStages newId nowIso) intent

/-! ## Statement classifiers and design well-formedness (used to state C4) -/

/-- Characters allowed in generated identifiers (`generateId` produces
`shape_` followed by lower-case base-36 digits). -/
def identChar (c : Char) : Bool := c.isLower || c.isDigit || c == '_'

/-- A well-formed generated identifier: starts with `shape_` and uses only
lower-case letters, digits and underscores. -/
def wfId (s : String) : Bool :=
  startsList "shape_".data s.data && s.data.all identChar

def wfValue : Value → Bool
  | .num _ => true
  | .str s => s.data.all identChar

def wfOperation (op : Operation) : Bool :=
  op.targetIds.all wfId && (op.parameters.getD []).all (fun kv => wfValue kv.2)

/-- Well-formedness of a design's identifiers, satisfied by everything the
intent parser can produce. -/
def wfDesign (d : StructuredDesign) : Bool :=
  d.primitives.all (fun p => wfId p.id) && d.operations.all wfOperation

/-- The text every primitive-creation statement (and no other generated
line) contains. -/
def creationMarker : List Char := "Part.make".data

def isCreationStmt (l : String) : Bool := occursIn creationMarker l.data

/-- The leading texts of operation statements: `result_<type>_`. -/
def opMarkStrings : List String :=
  ["result_union_", "result_difference_", "result_intersection_", "result_fillet_",
   "result_chamfer_"]

def isOpStmt (l : String) : Bool := opMarkStrings.any (fun p => startsList p.data l.data)

/-! ## Generic lemmas about the matching primitives -/

theorem starts_iff {pat l : List Char} : startsList pat l = true ↔ ∃ t, l = pat ++ t := by
  induction pat generalizing l with
  | nil => simp [startsList]
  | cons c cs ih =>
    cases l with
    | nil => simp [startsList]
    | cons d ds =>
      simp only [startsList, Bool.and_eq_true, beq_iff_eq, ih, List.cons_append,
        List.cons.injEq]
      constructor
      · rintro ⟨rfl, t, rfl⟩
        exact ⟨t, rfl, rfl⟩
      · rintro ⟨t, rfl, rfl⟩
        exact ⟨rfl, t, rfl⟩

theorem starts_rfl (l : List Char) : startsList l l = true :=
  starts_iff.mpr ⟨[], by simp⟩

theorem starts_extend {pat a : List Char} (h : startsList pat a = true) (b : List Char) :
    startsList pat (a ++ b) = true := by
  obtain ⟨t, rfl⟩ := starts_iff.mp h
  exact starts_iff.mpr ⟨t ++ b, by simp⟩

theorem starts_trans {a b c : List Char} (h1 : startsList a b = true)
    (h2 : startsList b c = true) : startsList a c = true := by
  obtain ⟨t, rfl⟩ := starts_iff.mp h1
  obtain ⟨u, rfl⟩ := starts_iff.mp h2
  exact starts_iff.mpr ⟨t ++ u, by simp⟩

theorem starts_compare {l a b : List Char} (ha : startsList a l = true)
    (hb : startsList b l = true) : startsList a b = true ∨ startsList b a = true := by
  induction l generalizing a b with
  | nil =>
    cases a with
    | nil => left; cases b <;> simp [startsList]
    | cons c cs => simp [startsList] at ha
  | cons x ls ih =>
    cases a with
    | nil => left; cases b <;> simp [startsList]
    | cons c cs =>
      cases b with
      | nil => right; simp [startsList]
      | cons d bs =>
        simp only [startsList, Bool.and_eq_true, beq_iff_eq] at ha hb ⊢
        obtain ⟨rfl, ha⟩ := ha
        obtain ⟨rfl, hb⟩ := hb
        rcases ih ha hb with h1 | h1
        · exact Or.inl ⟨rfl, h1⟩
        · exact Or.inr ⟨rfl, h1⟩

theorem starts_append_elim {pat a b : List Char} (h : startsList pat (a ++ b) = true) :
    startsList pat a = true ∨ startsList a pat = true := by
  induction a generalizing pat with
  | nil => right; cases pat <;> simp [startsList]
  | cons c a ih =>
    cases pat with
    | nil => left; simp [startsList]
    | cons d pt =>
      simp only [List.cons_append, startsList, Bool.and_eq_true, beq_iff_eq] at h ⊢
      obtain ⟨rfl, h⟩ := h
      rcases ih h with h1 | h1
      · exact Or.inl ⟨rfl, h1⟩
      · exact Or.inr ⟨rfl, h1⟩

theorem not_starts_append {pat A : List Char} (x : List Char)
    (h1 : startsList pat A = false) (h2 : startsList A pat = false) :
    startsList pat (A ++ x) = false := by
  cases hs : startsList pat (A ++ x) with
  | false => rfl
  | true =>
    rcases starts_append_elim hs with h | h
    · rw [h1] at h; cases h
    · rw [h2] at h; cases h

theorem not_starts_of_id {pat id rest : List Char}
    (hid : startsList "shape_".data id = true)
    (h1 : startsList pat "shape_".data = false)
    (h2 : startsList "shape_".data pat = false) :
    startsList pat (id ++ rest) = false := by
  cases hs : startsList pat (id ++ rest) with
  | false => rfl
  | true =>
    rcases starts_append_elim hs with h | h
    · rcases starts_compare h hid with h3 | h3
      · rw [h1] at h3; cases h3
      · rw [h2] at h3; cases h3
    · have := starts_trans hid h
      rw [h2] at this; cases this

theorem occ_of_starts {pat l : List Char} (h : startsList pat l = true) :
    occursIn pat l = true := by
  cases l with
  | nil => simpa [occursIn] using h
  | cons c rest => simp [occursIn, h]

theorem occ_cons {pat l : List Char} (c : Char) (h : occursIn pat l = true) :
    occursIn pat (c :: l) = true := by
  simp [occursIn, h]

theorem occ_iff {pat l : List Char} : occursIn pat l = true ↔ ∃ u v, l = u ++ (pat ++ v) := by
  induction l with
  | nil =>
    simp only [occursIn]
    rw [show (startsList pat [] = true ↔ ∃ t, ([] : List Char) = pat ++ t) from starts_iff]
    constructor
    · rintro ⟨t, ht⟩
      exact ⟨[], t, by simpa using ht⟩
    · rintro ⟨u, v, huv⟩
      have h : u = [] ∧ pat = [] ∧ v = [] := by simpa using huv.symm
      exact ⟨v, by simp [h.1, h.2.1, h.2.2]⟩
  | cons c rest ih =>
    simp only [occursIn, Bool.or_eq_true, ih]
    constructor
    · rintro (h | ⟨u, v, rfl⟩)
      · obtain ⟨t, ht⟩ := starts_iff.mp h
        exact ⟨[], t, by simpa using ht⟩
      · exact ⟨c :: u, v, rfl⟩
    · rintro ⟨u, v, huv⟩
      cases u with
      | nil =>
        left
        exact starts_iff.mpr ⟨v, by simpa using huv⟩
      | cons d u =>
        right
        simp only [List.cons_append, List.cons.injEq] at huv
        exact ⟨u, v, huv.2⟩

theorem occ_append_left {pat a : List Char} (h : occursIn pat a = true) (b : List Char) :
    occursIn pat (a ++ b) = true := by
  obtain ⟨u, v, rfl⟩ := occ_iff.mp h
  exact occ_iff.mpr ⟨u, v ++ b, by simp⟩

theorem occ_append_right {pat b : List Char} (a : List Char) (h : occursIn pat b = true) :
    occursIn pat (a ++ b) = true := by
  obtain ⟨u, v, rfl⟩ := occ_iff.mp h
  exact occ_iff.mpr ⟨a ++ u, v, by simp⟩

theorem occ_mem {pat l : List Char} {c : Char} (h : occursIn pat l = true) (hc : c ∈ pat) :
    c ∈ l := by
  obtain ⟨u, v, rfl⟩ := occ_iff.mp h
  simp [hc]

theorem not_occ_of_absent {pat l : List Char} {c : Char} (hc : c ∈ pat) (hl : c ∉ l) :
    occursIn pat l = false := by
  cases h : occursIn pat l with
  | false => rfl
  | true => exact absurd (occ_mem h hc) hl

/-- An occurrence of `pat` that crosses the boundary between `a` and `b`. -/
def Straddle (pat a b : List Char) : Prop :=
  ∃ p₁ p₂, pat = p₁ ++ p₂ ∧ p₁ ≠ [] ∧ p₂ ≠ [] ∧ endsList p₁ a = true ∧ startsList p₂ b = true

theorem ends_cons {x a : List Char} (c : Char) (h : endsList x a = true) :
    endsList x (c :: a) = true := by
  unfold endsList at h ⊢
  rw [List.reverse_cons]
  exact starts_extend h [c]

theorem ends_rfl (l : List Char) : endsList l l = true := starts_rfl l.reverse

theorem occ_split {pat a b : List Char} (h : occursIn pat (a ++ b) = true) :
    occursIn pat a = true ∨ occursIn pat b = true ∨ Straddle pat a b := by
  induction a with
  | nil => right; left; simpa using h
  | cons c a ih =>
    rw [List.cons_append] at h
    simp only [occursIn, Bool.or_eq_true] at h
    rcases h with h | h
    · rcases starts_append_elim (a := c :: a) h with h1 | h1
      · exact Or.inl (occ_of_starts h1)
      · obtain ⟨pt, rfl⟩ := starts_iff.mp h1
        have hpt : startsList pt b = true := by
          obtain ⟨t, ht⟩ := starts_iff.mp h
          simp only [List.cons_append, List.append_assoc, List.cons.injEq, true_and] at ht
          exact starts_iff.mpr ⟨t, List.append_cancel_left ht⟩
        cases pt with
        | nil => exact Or.inl (occ_of_starts (by simpa using starts_rfl (c :: a)))
        | cons e es =>
          refine Or.inr (Or.inr ⟨c :: a, e :: es, rfl, by simp, by simp, ends_rfl _, hpt⟩)
    · rcases ih h with h1 | h1 | h1
      · exact Or.inl (occ_cons c h1)
      · exact Or.inr (Or.inl h1)
      · obtain ⟨p₁, p₂, hp, h1, h2, h3, h4⟩ := h1
        exact Or.inr (Or.inr ⟨p₁, p₂, hp, h1, h2, ends_cons c h3, h4⟩)

theorem straddle_elim_right {pat b : List Char}
    (hB : ∀ k, k < pat.length → 0 < k → startsList (pat.drop k) b = false) :
    ∀ a, ¬ Straddle pat a b := by
  rintro a ⟨p₁, p₂, rfl, h1, h2, _, h4⟩
  have hd : (p₁ ++ p₂).drop p₁.length = p₂ := List.drop_left p₁ p₂
  have hlt : p₁.length < (p₁ ++ p₂).length := by
    rw [List.length_append]
    have := List.length_pos.mpr h2
    omega
  have hpos : 0 < p₁.length := List.length_pos.mpr h1
  have := hB p₁.length hlt hpos
  rw [hd] at this
  rw [this] at h4
  cases h4

theorem straddle_elim_left {pat a : List Char}
    (hA : ∀ k, k < pat.length → 0 < k → endsList (pat.take k) a = false) :
    ∀ b, ¬ Straddle pat a b := by
  rintro b ⟨p₁, p₂, rfl, h1, h2, h3, _⟩
  have ht : (p₁ ++ p₂).take p₁.length = p₁ := List.take_left p₁ p₂
  have hlt : p₁.length < (p₁ ++ p₂).length := by
    rw [List.length_append]
    have := List.length_pos.mpr h2
    omega
  have hpos : 0 < p₁.length := List.length_pos.mpr h1
  have := hA p₁.length hlt hpos
  rw [ht] at this
  rw [this] at h3
  cases h3

/-! ## Character classes of rendered fragments -/

theorem all_not_mem {l : List Char} {P : Char → Bool} (h : l.all P = true) {x : Char}
    (hx : P x = false) : x ∉ l := by
  intro hm
  have := List.all_eq_true.mp h x hm
  rw [hx] at this
  cases this

theorem not_mem_app {x : Char} {a b : List Char} (ha : x ∉ a) (hb : x ∉ b) :
    x ∉ a ++ b := by
  simp only [List.mem_append]
  rintro (h | h)
  · exact ha h
  · exact hb h

theorem digitChar_isDigit {m : Nat} (h : m < 10) : (Nat.digitChar m).isDigit = true := by
  interval_cases m <;> decide

theorem toDigitsCore_digits :
    ∀ (fuel n : Nat) (acc : List Char), (∀ c ∈ acc, c.isDigit = true) →
      ∀ c ∈ Nat.toDigitsCore 10 fuel n acc, c.isDigit = true := by
  intro fuel
  induction fuel with
  | zero =>
    intro n acc hacc c hc
    exact hacc c (by simpa [Nat.toDigitsCore] using hc)
  | succ fuel ih =>
    intro n acc hacc c hc
    simp only [Nat.toDigitsCore] at hc
    by_cases h0 : n / 10 = 0
    · rw [if_pos h0] at hc
      rcases List.mem_cons.mp hc with rfl | hc
      · exact digitChar_isDigit (Nat.mod_lt _ (by norm_num))
      · exact hacc c hc
    · rw [if_neg h0] at hc
      refine ih (n / 10) (Nat.digitChar (n % 10) :: acc) ?_ c hc
      intro d hd
      rcases List.mem_cons.mp hd with rfl | hd
      · exact digitChar_isDigit (Nat.mod_lt _ (by norm_num))
      · exact hacc d hd

theorem natRepr_digits (m : Nat) : ∀ c ∈ (Nat.repr m).data, c.isDigit = true := by
  intro c hc
  exact toDigitsCore_digits (m + 1) m [] (by simp) c hc

theorem numStr_chars (n : Int) : ∀ c ∈ (numStr n).data, c.isDigit = true ∨ c = '-' := by
  cases n with
  | ofNat m =>
    intro c hc
    exact Or.inl (natRepr_digits m c hc)
  | negSucc m =>
    intro c hc
    rcases List.mem_cons.mp hc with rfl | hc
    · exact Or.inr rfl
    · exact Or.inl (natRepr_digits (m + 1) c hc)

theorem numStr_not_mem (n : Int) {x : Char} (h1 : x.isDigit = false) (h2 : x ≠ '-') :
    x ∉ (numStr n).data := by
  intro hm
  rcases numStr_chars n x hm with h | h
  · rw [h1] at h; cases h
  · exact h2 h

theorem mem_joinSep {sep : String} {c : Char} :
    ∀ {parts : List String}, c ∈ (joinSep sep parts).data →
      c ∈ sep.data ∨ ∃ s ∈ parts, c ∈ s.data := by
  intro parts
  induction parts with
  | nil => intro hc; simp [joinSep] at hc
  | cons s rest ih =>
    intro hc
    cases rest with
    | nil => exact Or.inr ⟨s, by simp, by simpa [joinSep] using hc⟩
    | cons s2 r2 =>
      have : (joinSep sep (s :: s2 :: r2)).data
          = s.data ++ (sep.data ++ (joinSep sep (s2 :: r2)).data) := by
        simp [joinSep]
      rw [this] at hc
      rcases List.mem_append.mp hc with hc | hc
      · exact Or.inr ⟨s, by simp, hc⟩
      · rcases List.mem_append.mp hc with hc | hc
        · exact Or.inl hc
        · rcases ih hc with h | ⟨t, ht, hct⟩
          · exact Or.inl h
          · exact Or.inr ⟨t, by simp [ht], hct⟩

theorem joinSep_not_mem {sep : String} {parts : List String} {x : Char}
    (hsep : x ∉ sep.data) (hparts : ∀ s ∈ parts, x ∉ s.data) :
    x ∉ (joinSep sep parts).data := by
  intro hm
  rcases mem_joinSep hm with h | ⟨s, hs, hxs⟩
  · exact hsep h
  · exact hparts s hs hxs

theorem sanitize_chars {s : String} {c : Char} (hc : c ∈ (sanitizeName s).data) :
    c.isAlphanum = true ∨ c = '_' := by
  simp only [sanitizeName] at hc
  rcases List.mem_map.mp hc with ⟨a, _, ha⟩
  by_cases h : a.isAlphanum
  · rw [if_pos h] at ha
    exact Or.inl (ha ▸ h)
  · rw [if_neg h] at ha
    exact Or.inr ha.symm

theorem sanitize_not_mem {s : String} {x : Char} (h1 : x.isAlphanum = false)
    (h2 : x ≠ '_') : x ∉ (sanitizeName s).data := by
  intro hm
  rcases sanitize_chars hm with h | h
  · rw [h1] at h; cases h
  · exact h2 h

theorem wfId_starts {s : String} (h : wfId s = true) :
    startsList "shape_".data s.data = true :=
  ((Bool.and_eq_true _ _).mp
    (show (startsList "shape_".data s.data && s.data.all identChar) = true from h)).1

theorem wfId_all {s : String} (h : wfId s = true) : s.data.all identChar = true :=
  ((Bool.and_eq_true _ _).mp
    (show (startsList "shape_".data s.data && s.data.all identChar) = true from h)).2

theorem ident_not_mem {s : String} (h : s.data.all identChar = true) {x : Char}
    (hx : identChar x = false) : x ∉ s.data :=
  all_not_mem h hx

theorem wfOperation_ids {op : Operation} (h : wfOperation op = true) :
    ∀ t ∈ op.targetIds, wfId t = true := by
  have := ((Bool.and_eq_true _ _).mp
    (show (op.targetIds.all wfId
        && (op.parameters.getD []).all (fun kv => wfValue kv.2)) = true from h)).1
  exact List.all_eq_true.mp this

theorem wfOperation_params {op : Operation} (h : wfOperation op = true) :
    ∀ kv ∈ op.parameters.getD [], wfValue kv.2 = true := by
  have := ((Bool.and_eq_true _ _).mp
    (show (op.targetIds.all wfId
        && (op.parameters.getD []).all (fun kv => wfValue kv.2)) = true from h)).2
  exact List.all_eq_true.mp this

theorem optParam_str_ident {op : Operation} (h : wfOperation op = true) {k : String}
    {s : String} (hf : optParam op k = some (.str s)) : s.data.all identChar = true := by
  unfold optParam at hf
  cases hps : op.parameters with
  | none => rw [hps] at hf; cases hf
  | some ps =>
    rw [hps] at hf
    dsimp only at hf
    unfold lookupParam at hf
    cases hfind : ps.find? (fun kv => kv.1 == k) with
    | none => rw [hfind] at hf; cases hf
    | some kv =>
      rw [hfind] at hf
      have hmem := List.mem_of_find?_eq_some hfind
      have := wfOperation_params h kv (by rw [hps]; exact hmem)
      simp only [Option.map_some'] at hf
      have hv : kv.2 = .str s := by injection hf
      rw [hv] at this
      exact this

/-! ## Classification of generated lines: creation statements -/

theorem isCreation_false_of_noP {l : String} (h : 'P' ∉ l.data) : isCreationStmt l = false :=
  not_occ_of_absent (by decide) h

theorem ident_noP {s : String} (h : s.data.all identChar = true) : 'P' ∉ s.data :=
  ident_not_mem h (by decide)

theorem numStr_noP (n : Int) : 'P' ∉ (numStr n).data :=
  numStr_not_mem n (by decide) (by decide)

theorem tgt0_noP {op : Operation} (h : wfOperation op = true) : 'P' ∉ (tgt0 op).data := by
  unfold tgt0
  cases hts : op.targetIds with
  | nil => decide
  | cons t ts =>
    have := wfOperation_ids h t (by rw [hts]; simp)
    exact ident_noP (wfId_all this)

theorem joined_noP {op : Operation} (h : wfOperation op = true) (sep : String)
    (hsep : 'P' ∉ sep.data) (ts : List String) (hts : ∀ t ∈ ts, t ∈ op.targetIds) :
    'P' ∉ (joinSep sep ts).data := by
  refine joinSep_not_mem hsep ?_
  intro s hs
  exact ident_noP (wfId_all (wfOperation_ids h s (hts s hs)))

theorem resultName_noP {op : Operation} (h : wfOperation op = true) :
    'P' ∉ (resultName op).data := by
  unfold resultName
  simp only [String.data_append, List.append_assoc]
  refine not_mem_app ?_ (not_mem_app ?_ (not_mem_app ?_ ?_))
  · decide
  · cases op.type <;> decide
  · decide
  · exact joined_noP h "_" (by decide) op.targetIds (fun t ht => ht)

theorem render_jsOr_noP {op : Operation} (h : wfOperation op = true) (k : String) (d : Int) :
    'P' ∉ (renderValue (jsOr (optParam op k) (.num d))).data := by
  cases hv : optParam op k with
  | none => exact numStr_noP d
  | some v =>
    cases v with
    | num n =>
      by_cases h0 : n = 0
      · simp only [jsOr, h0, if_pos rfl]
        exact numStr_noP d
      · simp only [jsOr, if_neg h0]
        exact numStr_noP n
    | str s =>
      by_cases h0 : s = ""
      · simp only [jsOr, h0, if_pos rfl]
        exact numStr_noP d
      · simp only [jsOr, if_neg h0]
        exact ident_noP (optParam_str_ident h hv)

theorem filter_eq_nil_of {α} {q : α → Bool} :
    ∀ {l : List α}, (∀ a ∈ l, q a = false) → l.filter q = [] := by
  intro l h
  induction l with
  | nil => rfl
  | cons a t ih =>
    simp only [List.filter_cons, h a (by simp)]
    exact ih (fun b hb => h b (by simp [hb]))

theorem filter_flatten_map_eq {β} {f : β → List String} {g : β → String} {q : String → Bool} :
    ∀ {L : List β}, (∀ x ∈ L, (f x).filter q = [g x]) →
      ((L.map f).flatten).filter q = L.map g := by
  intro L h
  induction L with
  | nil => rfl
  | cons x t ih =>
    simp only [List.map_cons, List.flatten_cons, List.filter_append]
    rw [h x (by simp), ih (fun y hy => h y (by simp [hy]))]
    rfl

theorem filter_flatten_map_nil {β} {f : β → List String} {q : String → Bool} :
    ∀ {L : List β}, (∀ x ∈ L, (f x).filter q = []) →
      ((L.map f).flatten).filter q = [] := by
  intro L h
  induction L with
  | nil => rfl
  | cons x t ih =>
    simp only [List.map_cons, List.flatten_cons, List.filter_append]
    rw [h x (by simp), ih (fun y hy => h y (by simp [hy]))]
    rfl

theorem isCreation_creation (p : PrimitiveShape) : isCreationStmt (creationStmt p) = true := by
  obtain ⟨pid, ty, params, pos, rot⟩ := p
  unfold isCreationStmt creationStmt
  cases ty <;>
    · simp only [String.data_append, List.append_assoc]
      exact occ_append_right _ (occ_append_left (by decide) _)

theorem isCreation_comment (ty : PrimType) :
    isCreationStmt ("# Create " ++ primTypeName ty) = false := by
  cases ty <;> decide

theorem isCreation_posLines {p : PrimitiveShape} (hid : wfId p.id = true) :
    ∀ l ∈ posLines p, isCreationStmt l = false := by
  intro l hl
  rcases hpos : p.position with _ | pos
  · simp [posLines, hpos] at hl
  · simp only [posLines, hpos, List.mem_singleton] at hl
    subst hl
    apply isCreation_false_of_noP
    simp only [String.data_append, List.append_assoc]
    exact not_mem_app (ident_noP (wfId_all hid)) (not_mem_app (by decide)
      (not_mem_app (numStr_noP _) (not_mem_app (by decide)
        (not_mem_app (numStr_noP _) (not_mem_app (by decide)
          (not_mem_app (numStr_noP _) (by decide)))))))

theorem isCreation_rotLines {p : PrimitiveShape} (hid : wfId p.id = true) :
    ∀ l ∈ rotLines p, isCreationStmt l = false := by
  intro l hl
  rcases hrot : p.rotation with _ | rot
  · simp [rotLines, hrot] at hl
  · simp only [rotLines, hrot, List.mem_cons, List.mem_singleton, List.not_mem_nil,
      or_false] at hl
    rcases hl with rfl | rfl | rfl <;>
      · apply isCreation_false_of_noP
        simp only [String.data_append, List.append_assoc]
        exact not_mem_app (ident_noP (wfId_all hid)) (not_mem_app (by decide)
          (not_mem_app (numStr_noP _) (by decide)))

theorem isCreation_objLines {pid : String} {ty : PrimType} {params : List (String × Value)}
    {pos : Option Position} {rot : Option Rotation} (hid : wfId pid = true) :
    ∀ l ∈ objLines ⟨pid, ty, params, pos, rot⟩, isCreationStmt l = false := by
  intro l hl
  simp only [objLines, List.mem_cons, List.mem_singleton, List.not_mem_nil, or_false] at hl
  rcases hl with rfl | rfl
  · cases ty <;> decide
  · apply isCreation_false_of_noP
    simp only [String.data_append, List.append_assoc]
    exact not_mem_app (by decide) (ident_noP (wfId_all hid))

theorem creation_primChunk {p : PrimitiveShape} (hid : wfId p.id = true) :
    (primChunk p).filter isCreationStmt = [creationStmt p] := by
  have hrest : ((posLines p ++ rotLines p ++ objLines p) ++ [""]).filter isCreationStmt = [] := by
    apply filter_eq_nil_of
    intro l hl
    simp only [List.mem_append, List.mem_singleton] at hl
    rcases hl with ((hl | hl) | hl) | rfl
    · exact isCreation_posLines hid l hl
    · exact isCreation_rotLines hid l hl
    · obtain ⟨pid, ty, params, pos, rot⟩ := p
      exact isCreation_objLines hid l hl
    · decide
  show (("# Create " ++ primTypeName p.type)
      :: (generatePrimitiveCode p ++ [""])).filter isCreationStmt = [creationStmt p]
  unfold generatePrimitiveCode
  rw [List.cons_append]
  rw [List.filter_cons, List.filter_cons]
  rw [isCreation_comment p.type, isCreation_creation p]
  simpa using hrest

theorem isCreation_opStmt {op : Operation} (h : wfOperation op = true) :
    isCreationStmt (opStmt op) = false := by
  obtain ⟨ty, tids, params⟩ := op
  unfold opStmt
  cases ty <;>
    (apply isCreation_false_of_noP
     simp only [String.data_append, List.append_assoc]
     first
      | exact not_mem_app (resultName_noP h) (not_mem_app (by decide) (not_mem_app (tgt0_noP h)
          (not_mem_app (by decide) (not_mem_app (joined_noP h ", " (by decide) _
            (fun t ht => List.drop_subset _ _ ht)) (by decide)))))
      | exact not_mem_app (resultName_noP h) (not_mem_app (by decide) (not_mem_app (tgt0_noP h)
          (not_mem_app (by decide) (not_mem_app (render_jsOr_noP h _ 1) (not_mem_app (by decide)
            (not_mem_app (tgt0_noP h) (by decide))))))))

theorem isCreation_opObj {op : Operation} (h : wfOperation op = true) :
    ∀ l ∈ opObjLines op, isCreationStmt l = false := by
  obtain ⟨ty, tids, params⟩ := op
  intro l hl
  simp only [opObjLines, List.mem_cons, List.mem_singleton, List.not_mem_nil, or_false] at hl
  rcases hl with rfl | rfl
  · cases ty <;> decide
  · apply isCreation_false_of_noP
    simp only [String.data_append, List.append_assoc]
    exact not_mem_app (by decide) (resultName_noP h)

theorem creation_opChunk {op : Operation} (h : wfOperation op = true) :
    (opChunk op).filter isCreationStmt = [] := by
  apply filter_eq_nil_of
  intro l hl
  simp only [opChunk, generateOperationCode, List.mem_append, List.mem_cons,
    List.mem_singleton, List.not_mem_nil, or_false] at hl
  rcases hl with (rfl | hl) | rfl
  · exact isCreation_opStmt h
  · exact isCreation_opObj h l hl
  · decide

theorem creation_opsSection {ops : List Operation} (h : ∀ op ∈ ops, wfOperation op = true) :
    (opsSection ops).filter isCreationStmt = [] := by
  unfold opsSection
  by_cases hlen : ops.length > 0
  · rw [if_pos hlen]
    have h0 : isCreationStmt "# Apply operations" = false := by decide
    simp only [List.filter_cons, h0, Bool.false_eq_true, if_false]
    exact filter_flatten_map_nil (fun op hop => creation_opChunk (h op hop))
  · rw [if_neg hlen]
    rfl

theorem creation_header : freeCADHeader.filter isCreationStmt = [] := by decide

theorem creation_saveLine (nm : String) :
    isCreationStmt ("# doc.saveAs(\"" ++ sanitizeName nm ++ ".FCStd\")") = false := by
  unfold isCreationStmt
  cases hocc : occursIn creationMarker
      ("# doc.saveAs(\"" ++ sanitizeName nm ++ ".FCStd\")").data with
  | false => rfl
  | true =>
    exfalso
    rw [String.data_append, String.data_append, List.append_assoc] at hocc
    rcases occ_split hocc with h1 | h1 | h1
    · exact absurd h1 (by decide)
    · rcases occ_split h1 with h2 | h2 | h2
      · have hdot : ('.' : Char) ∉ (sanitizeName nm).data :=
          sanitize_not_mem (by decide) (by decide)
        have := not_occ_of_absent (show ('.' : Char) ∈ creationMarker by decide) hdot
        rw [this] at h2
        cases h2
      · exact absurd h2 (by decide)
      · exact straddle_elim_right (by decide) _ h2
    · exact straddle_elim_left (by decide) _ h1

theorem creation_footer (design : StructuredDesign) :
    (footerLines design).filter isCreationStmt = [] := by
  apply filter_eq_nil_of
  intro l hl
  simp only [footerLines, List.mem_cons, List.mem_singleton, List.not_mem_nil, or_false] at hl
  rcases hl with rfl | rfl | rfl | rfl | rfl
  · decide
  · decide
  · decide
  · decide
  · exact creation_saveLine _

theorem wfDesign_prims {d : StructuredDesign} (h : wfDesign d = true) :
    ∀ p ∈ d.primitives, wfId p.id = true := by
  have := ((Bool.and_eq_true _ _).mp
    (show (d.primitives.all (fun p => wfId p.id) && d.operations.all wfOperation) = true
      from h)).1
  exact List.all_eq_true.mp this

theorem wfDesign_ops {d : StructuredDesign} (h : wfDesign d = true) :
    ∀ op ∈ d.operations, wfOperation op = true := by
  have := ((Bool.and_eq_true _ _).mp
    (show (d.primitives.all (fun p => wfId p.id) && d.operations.all wfOperation) = true
      from h)).2
  exact List.all_eq_true.mp this

theorem filter_creation_eq (design : StructuredDesign) (h : wfDesign design = true) :
    (generatedCodeLines design).filter isCreationStmt = design.primitives.map creationStmt := by
  unfold generatedCodeLines
  rw [List.filter_append, List.filter_append, List.filter_append]
  rw [creation_header, creation_opsSection (wfDesign_ops h), creation_footer]
  rw [filter_flatten_map_eq (fun p hp => creation_primChunk (wfDesign_prims h p hp))]
  simp

/-! ## Classification of generated lines: operation statements -/

theorem isOp_false_of_all {l : String}
    (h : ∀ pat ∈ opMarkStrings, startsList pat.data l.data = false) : isOpStmt l = false := by
  unfold isOpStmt
  cases ha : opMarkStrings.any (fun p => startsList p.data l.data) with
  | false => rfl
  | true =>
    obtain ⟨pat, hm, hp⟩ := List.any_eq_true.mp ha
    rw [h pat hm] at hp
    cases hp

theorem opPat_not_starts_id {pid : String} (hid : wfId pid = true) {pat : String}
    (hpat : pat ∈ opMarkStrings) (rest : List Char) :
    startsList pat.data (pid.data ++ rest) = false := by
  have hs := wfId_starts hid
  simp only [opMarkStrings, List.mem_cons, List.not_mem_nil, or_false] at hpat
  rcases hpat with rfl | rfl | rfl | rfl | rfl <;>
    exact not_starts_of_id hs (by decide) (by decide)

theorem opPat_not_starts_conc {pat : String} (hpat : pat ∈ opMarkStrings) {A : List Char}
    (rest : List Char)
    (h : ∀ q ∈ opMarkStrings, startsList q.data A = false ∧ startsList A q.data = false) :
    startsList pat.data (A ++ rest) = false := by
  obtain ⟨h1, h2⟩ := h pat hpat
  exact not_starts_append rest h1 h2

theorem op_primChunk {p : PrimitiveShape} (hid : wfId p.id = true) :
    (primChunk p).filter isOpStmt = [] := by
  obtain ⟨pid, ty, params, pos, rot⟩ := p
  apply filter_eq_nil_of
  intro l hl
  simp only [primChunk, generatePrimitiveCode, List.mem_cons, List.mem_append,
    List.mem_singleton, List.not_mem_nil, or_false] at hl
  rcases hl with rfl | (rfl | ((hl | hl) | hl)) | rfl
  · cases ty <;> decide
  · cases ty <;>
      (apply isOp_false_of_all
       intro pat hpat
       simp only [creationStmt, String.data_append, List.append_assoc]
       exact opPat_not_starts_id hid hpat _)
  · rcases hpos : pos with _ | pp
    · rw [hpos] at hl; simp [posLines] at hl
    · rw [hpos] at hl
      simp only [posLines, List.mem_singleton] at hl
      subst hl
      apply isOp_false_of_all
      intro pat hpat
      simp only [String.data_append, List.append_assoc]
      exact opPat_not_starts_id hid hpat _
  · rcases hrot : rot with _ | rr
    · rw [hrot] at hl; simp [rotLines] at hl
    · rw [hrot] at hl
      simp only [rotLines, List.mem_cons, List.mem_singleton, List.not_mem_nil, or_false] at hl
      rcases hl with rfl | rfl | rfl <;>
        · apply isOp_false_of_all
          intro pat hpat
          simp only [String.data_append, List.append_assoc]
          exact opPat_not_starts_id hid hpat _
  · simp only [objLines, List.mem_cons, List.mem_singleton, List.not_mem_nil, or_false] at hl
    rcases hl with rfl | rfl
    · apply isOp_false_of_all
      intro pat hpat
      simp only [String.data_append, List.append_assoc]
      exact opPat_not_starts_conc hpat _ (by decide)
    · apply isOp_false_of_all
      intro pat hpat
      simp only [String.data_append, List.append_assoc]
      exact opPat_not_starts_conc hpat _ (by decide)
  · decide

theorem isOp_opStmt (op : Operation) : isOpStmt (opStmt op) = true := by
  obtain ⟨ty, tids, params⟩ := op
  unfold isOpStmt
  apply List.any_eq_true.mpr
  cases ty with
  | union =>
    refine ⟨"result_union_", by simp [opMarkStrings], ?_⟩
    simp only [opStmt, resultName, opTypeName, String.data_append]
    exact starts_extend (starts_extend (starts_extend (starts_extend (starts_extend
      (starts_extend (by decide) _) _) _) _) _) _
  | difference =>
    refine ⟨"result_difference_", by simp [opMarkStrings], ?_⟩
    simp only [opStmt, resultName, opTypeName, String.data_append]
    exact starts_extend (starts_extend (starts_extend (starts_extend (starts_extend
      (starts_extend (by decide) _) _) _) _) _) _
  | intersection =>
    refine ⟨"result_intersection_", by simp [opMarkStrings], ?_⟩
    simp only [opStmt, resultName, opTypeName, String.data_append]
    exact starts_extend (starts_extend (starts_extend (starts_extend (starts_extend
      (starts_extend (by decide) _) _) _) _) _) _
  | fillet =>
    refine ⟨"result_fillet_", by simp [opMarkStrings], ?_⟩
    simp only [opStmt, resultName, opTypeName, String.data_append]
    exact starts_extend (starts_extend (starts_extend (starts_extend (starts_extend
      (starts_extend (starts_extend (starts_extend (by decide) _) _) _) _) _) _) _) _
  | chamfer =>
    refine ⟨"result_chamfer_", by simp [opMarkStrings], ?_⟩
    simp only [opStmt, resultName, opTypeName, String.data_append]
    exact starts_extend (starts_extend (starts_extend (starts_extend (starts_extend
      (starts_extend (starts_extend (starts_extend (by decide) _) _) _) _) _) _) _) _

theorem isOp_opObj (op : Operation) : ∀ l ∈ opObjLines op, isOpStmt l = false := by
  intro l hl
  simp only [opObjLines, List.mem_cons, List.mem_singleton, List.not_mem_nil, or_false] at hl
  rcases hl with rfl | rfl
  · apply isOp_false_of_all
    intro pat hpat
    simp only [String.data_append, List.append_assoc]
    exact opPat_not_starts_conc hpat _ (by decide)
  · apply isOp_false_of_all
    intro pat hpat
    simp only [String.data_append, List.append_assoc]
    exact opPat_not_starts_conc hpat _ (by decide)

theorem op_opChunk (op : Operation) : (opChunk op).filter isOpStmt = [opStmt op] := by
  have hrest : (opObjLines op ++ [""]).filter isOpStmt = [] := by
    apply filter_eq_nil_of
    intro l hl
    simp only [List.mem_append, List.mem_singleton] at hl
    rcases hl with hl | rfl
    · exact isOp_opObj op l hl
    · decide
  show ((opStmt op :: opObjLines op) ++ [""]).filter isOpStmt = _
  rw [List.cons_append, List.filter_cons, isOp_opStmt]
  simpa using hrest

theorem op_opsSection (ops : List Operation) :
    (opsSection ops).filter isOpStmt = ops.map opStmt := by
  unfold opsSection
  by_cases hlen : ops.length > 0
  · rw [if_pos hlen]
    have h0 : isOpStmt "# Apply operations" = false := by decide
    simp only [List.filter_cons, h0, Bool.false_eq_true, if_false]
    exact filter_flatten_map_eq (fun op _ => op_opChunk op)
  · rw [if_neg hlen]
    have : ops = [] := List.length_eq_zero.mp (by omega)
    subst this
    rfl

theorem op_header : freeCADHeader.filter isOpStmt = [] := by decide

theorem op_footer (design : StructuredDesign) : (footerLines design).filter isOpStmt = [] := by
  apply filter_eq_nil_of
  intro l hl
  simp only [footerLines, List.mem_cons, List.mem_singleton, List.not_mem_nil, or_false] at hl
  rcases hl with rfl | rfl | rfl | rfl | rfl
  · decide
  · decide
  · decide
  · decide
  · apply isOp_false_of_all
    intro pat hpat
    simp only [String.data_append, List.append_assoc]
    exact opPat_not_starts_conc hpat _ (by decide)

theorem filter_op_eq (design : StructuredDesign) (h : wfDesign design = true) :
    (generatedCodeLines design).filter isOpStmt = design.operations.map opStmt := by
  unfold generatedCodeLines
  rw [List.filter_append, List.filter_append, List.filter_append]
  rw [op_header, op_footer, op_opsSection]
  rw [filter_flatten_map_nil (fun p hp => op_primChunk (wfDesign_prims h p hp))]
  simp

/-! ## Claim theorems -/

/-- Claim C1: for every script whose code text contains a denylisted pattern
(case-insensitively), `validateScriptSafety` returns false and
`executeScript` — re-checking safety itself — returns the fixed failure
ExecutionResult (success = false, the explicit unsafe-code error message, a
non-empty warnings list), independently of the external engine, i.e. the
script is never forwarded. -/
theorem claim_C1 (script : FreeCADScript)
    (h : ∃ pat ∈ dangerousPatterns, containsSub (lowerStr script.code) (lowerStr pat) = true) :
    validateScriptSafety script = false ∧
    ∀ engine : FreeCADScript → ExecutionResult,
      executeScriptWith engine script =
        { success := false,
          errorMessage := some "Script contains potentially unsafe operations and cannot be executed.",
          warnings := some ["Potentially unsafe code detected."] } := by
  have hv : validateScriptSafety script = false := by
    obtain ⟨pat, hm, hc⟩ := h
    have hany : dangerousPatterns.any
        (fun pat => containsSub (lowerStr script.code) (lowerStr pat)) = true :=
      List.any_eq_true.mpr ⟨pat, hm, hc⟩
    show (!(dangerousPatterns.any
      (fun pat => containsSub (lowerStr script.code) (lowerStr pat)))) = false
    rw [hany]
    rfl
  refine ⟨hv, fun engine => ?_⟩
  unfold executeScriptWith
  rw [hv]
  rfl

/-- Concrete instance of C1: a script containing `IMPORT OS`. -/
theorem claim_C1_witness :
    validateScriptSafety { code := "IMPORT OS", imports := [], safeToExecute := true } = false ∧
    ∀ engine : FreeCADScript → ExecutionResult,
      executeScriptWith engine { code := "IMPORT OS", imports := [], safeToExecute := true } =
        { success := false,
          errorMessage := some "Script contains potentially unsafe operations and cannot be executed.",
          warnings := some ["Potentially unsafe code detected."] } :=
  claim_C1 _ ⟨"import os", by decide, by decide⟩

/-- Claim C5: for a union (likewise difference, intersection) operation with
at least two targetIds, the generated code is a single combinator call on
the first target with all remaining targets grouped as the one secondary
argument — the complete emitted line list is pinned, showing there is no
pairwise fold. -/
theorem claim_C5 (a b : String) (rest : List String) (params : Option (List (String × Value))) :
    generateOperationCode { type := .union, targetIds := a :: b :: rest, parameters := params } =
      [resultName { type := .union, targetIds := a :: b :: rest, parameters := params }
         ++ " = " ++ a ++ ".fuse(" ++ joinSep ", " (b :: rest) ++ ")",
       "result_obj = doc.addObject(\"Part::Feature\", \"Union\")",
       "result_obj.Shape = "
         ++ resultName { type := .union, targetIds := a :: b :: rest, parameters := params }] ∧
    generateOperationCode { type := .difference, targetIds := a :: b :: rest, parameters := params } =
      [resultName { type := .difference, targetIds := a :: b :: rest, parameters := params }
         ++ " = " ++ a ++ ".cut(" ++ joinSep ", " (b :: rest) ++ ")",
       "result_obj = doc.addObject(\"Part::Feature\", \"Difference\")",
       "result_obj.Shape = "
         ++ resultName { type := .difference, targetIds := a :: b :: rest, parameters := params }] ∧
    generateOperationCode { type := .intersection, targetIds := a :: b :: rest, parameters := params } =
      [resultName { type := .intersection, targetIds := a :: b :: rest, parameters := params }
         ++ " = " ++ a ++ ".common(" ++ joinSep ", " (b :: rest) ++ ")",
       "result_obj = doc.addObject(\"Part::Feature\", \"Intersection\")",
       "result_obj.Shape = "
         ++ resultName { type := .intersection, targetIds := a :: b :: rest, parameters := params }] :=
  ⟨rfl, rfl, rfl⟩

/-- Claim C6: when a rotation is present, exactly three single-axis rotation
statements about the origin are emitted, in the fixed order X, then Y, then
Z, whatever the rotation values are; the translation statement (when a
position is present) comes before them. -/
theorem claim_C6 (p : PrimitiveShape) (r : Rotation) (hr : p.rotation = some r) :
    generatePrimitiveCode p =
      [creationStmt p] ++ posLines p
        ++ [p.id ++ ".rotate(Base.Vector(0,0,0), Base.Vector(1,0,0), " ++ numStr r.x ++ ")",
            p.id ++ ".rotate(Base.Vector(0,0,0), Base.Vector(0,1,0), " ++ numStr r.y ++ ")",
            p.id ++ ".rotate(Base.Vector(0,0,0), Base.Vector(0,0,1), " ++ numStr r.z ++ ")"]
        ++ objLines p ∧
    (∀ pos : Position, p.position = some pos →
        posLines p = [p.id ++ ".translate(Base.Vector(" ++ numStr pos.x ++ ", " ++ numStr pos.y
          ++ ", " ++ numStr pos.z ++ "))"]) ∧
    (p.position = none → posLines p = []) := by
  refine ⟨?_, ?_, ?_⟩
  · unfold generatePrimitiveCode rotLines
    rw [hr]
    simp
  · intro pos hpos
    unfold posLines
    rw [hpos]
  · intro hpos
    unfold posLines
    rw [hpos]

/-- Concrete instance of C6: a cube with both position and rotation. -/
theorem claim_C6_witness :
    generatePrimitiveCode
        ⟨"shape_w", .cube, [("length", .num 2)], some ⟨1, 2, 3⟩, some ⟨90, 0, 0⟩⟩ =
      [creationStmt ⟨"shape_w", .cube, [("length", .num 2)], some ⟨1, 2, 3⟩, some ⟨90, 0, 0⟩⟩]
        ++ posLines ⟨"shape_w", .cube, [("length", .num 2)], some ⟨1, 2, 3⟩, some ⟨90, 0, 0⟩⟩
        ++ ["shape_w" ++ ".rotate(Base.Vector(0,0,0), Base.Vector(1,0,0), " ++ numStr 90 ++ ")",
            "shape_w" ++ ".rotate(Base.Vector(0,0,0), Base.Vector(0,1,0), " ++ numStr 0 ++ ")",
            "shape_w" ++ ".rotate(Base.Vector(0,0,0), Base.Vector(0,0,1), " ++ numStr 0 ++ ")"]
        ++ objLines ⟨"shape_w", .cube, [("length", .num 2)], some ⟨1, 2, 3⟩, some ⟨90, 0, 0⟩⟩ :=
  (claim_C6 _ ⟨90, 0, 0⟩ rfl).1

/-- Claim C8: `formatErrorMessage` is idempotent, and a message matching
none of the known engine error substrings is returned unchanged. -/
theorem claim_C8 (m : String) :
    formatErrorMessage (formatErrorMessage m) = formatErrorMessage m ∧
    (containsSub m "TopoDS_Shape is null" = false → containsSub m "out of bounds" = false →
      formatErrorMessage m = m) := by
  constructor
  · by_cases h1 : containsSub m "TopoDS_Shape is null" = true
    · have hm : formatErrorMessage m =
          "The design resulted in an invalid shape. Try simplifying your geometry." := by
        unfold formatErrorMessage
        rw [if_pos h1]
      rw [hm]
      decide
    · by_cases h2 : containsSub m "out of bounds" = true
      · have hm : formatErrorMessage m =
            "One or more parameters are out of the allowed range. Check your dimensions." := by
          unfold formatErrorMessage
          rw [if_neg h1, if_pos h2]
        rw [hm]
        decide
      · have hm : formatErrorMessage m = m := by
          unfold formatErrorMessage
          rw [if_neg h1, if_neg h2]
        rw [hm, hm]
  · intro h1 h2
    unfold formatErrorMessage
    rw [if_neg (by simp [h1]), if_neg (by simp [h2])]

/-- Concrete instance of C8: an unrecognized message is unchanged and
re-formatting is a no-op. -/
theorem claim_C8_witness :
    formatErrorMessage (formatErrorMessage "mystery failure") = formatErrorMessage "mystery failure"
      ∧ formatErrorMessage "mystery failure" = "mystery failure" :=
  ⟨(claim_C8 "mystery failure").1, (claim_C8 "mystery failure").2 (by decide) (by decide)⟩

/-- Claim C10: a fillet whose parameters give radius the explicit value 0
(and a chamfer whose distance is 0) generates exactly the same code as if
the parameter were absent — the 1.0 default overrides an explicit zero. -/
theorem claim_C10 (tids : List String) (ps : List (String × Value)) :
    (lookupParam ps "radius" = some (.num 0) →
        generateOperationCode { type := .fillet, targetIds := tids, parameters := some ps } =
          generateOperationCode { type := .fillet, targetIds := tids, parameters := none }) ∧
    (lookupParam ps "distance" = some (.num 0) →
        generateOperationCode { type := .chamfer, targetIds := tids, parameters := some ps } =
          generateOperationCode { type := .chamfer, targetIds := tids, parameters := none }) ∧
    jsOr (some (.num 0)) (.num 1) = jsOr none (.num 1) := by
  refine ⟨?_, ?_, rfl⟩
  · intro h
    unfold generateOperationCode opStmt opObjLines
    have h2 : optParam { type := .fillet, targetIds := tids, parameters := some ps } "radius"
        = some (.num 0) := h
    rw [h2]
    rfl
  · intro h
    unfold generateOperationCode opStmt opObjLines
    have h2 : optParam { type := .chamfer, targetIds := tids, parameters := some ps } "distance"
        = some (.num 0) := h
    rw [h2]
    rfl

/-- Concrete instance of C10: explicit radius 0 and distance 0. -/
theorem claim_C10_witness :
    generateOperationCode ⟨.fillet, ["shape_a"], some [("radius", .num 0)]⟩ =
      generateOperationCode ⟨.fillet, ["shape_a"], none⟩ ∧
    generateOperationCode ⟨.chamfer, ["shape_a"], some [("distance", .num 0)]⟩ =
      generateOperationCode ⟨.chamfer, ["shape_a"], none⟩ :=
  ⟨(claim_C10 ["shape_a"] [("radius", .num 0)]).1 rfl,
   (claim_C10 ["shape_a"] [("distance", .num 0)]).2.1 rfl⟩

/-- Counterexample to Claim C7 as stated: on a successful result with zero
warnings the feedback has status success, but its message is the literal
`Model created successfully!`, not `creation succeeded`. -/
theorem claim_C7_counterexample :
    (generateUserFeedback { success := true, warnings := some [] }).status = "success" ∧
    (generateUserFeedback { success := true, warnings := some [] }).message ≠ "creation succeeded"
      ∧ (generateUserFeedback { success := true, warnings := some [] }).message
          = "Model created successfully!" := by
  refine ⟨rfl, ?_, rfl⟩
  decide

/-- Claim C7 (amended): `generateUserFeedback` maps success with zero
warnings to status success, message `Model created successfully!` and
action list exactly [accept]; success with warnings to status success and
action list exactly [accept, modify] in that order; failure to status error
and action list exactly [regenerate, modify, clarify] in that order. -/
theorem claim_C7_amended (r : ExecutionResult) :
    (r.success = true → r.warnings = none ∨ r.warnings = some [] →
        generateUserFeedback r =
          { status := "success", message := "Model created successfully!",
            details := some "The model was created without any warnings.",
            suggestedActions := some [{ type := "accept", description := "Use this model" }] }) ∧
    (r.success = true → ∀ w ws, r.warnings = some (w :: ws) →
        (generateUserFeedback r).status = "success" ∧
        (generateUserFeedback r).suggestedActions =
          some [{ type := "accept", description := "Use this model" },
                { type := "modify", description := "Modify design to address warnings" }]) ∧
    (r.success = false →
        (generateUserFeedback r).status = "error" ∧
        (generateUserFeedback r).suggestedActions =
          some [{ type := "regenerate", description := "Try again with simplified geometry" },
                { type := "modify", description := "Modify design parameters" },
                { type := "clarify", description := "Provide more details about the design" }]) := by
  refine ⟨?_, ?_, ?_⟩
  · intro hs hw
    unfold generateUserFeedback getSuggestedActionsForSuccess
    rw [hs]
    rcases hw with hw | hw <;> rw [hw] <;> rfl
  · intro hs w ws hw
    unfold generateUserFeedback getSuggestedActionsForSuccess
    rw [hs, hw]
    exact ⟨rfl, rfl⟩
  · intro hs
    unfold generateUserFeedback getSuggestedActionsForFailure
    rw [hs]
    exact ⟨rfl, rfl⟩

/-- Concrete instances of the amended C7 mapping. -/
theorem claim_C7_amended_witness :
    generateUserFeedback { success := true, warnings := some [] } =
      { status := "success", message := "Model created successfully!",
        details := some "The model was created without any warnings.",
        suggestedActions := some [{ type := "accept", description := "Use this model" }] } ∧
    (generateUserFeedback { success := true, warnings := some ["w"] }).suggestedActions =
      some [{ type := "accept", description := "Use this model" },
            { type := "modify", description := "Modify design to address warnings" }] ∧
    (generateUserFeedback { success := false }).status = "error" :=
  ⟨(claim_C7_amended _).1 rfl (Or.inr rfl),
   ((claim_C7_amended _).2.1 rfl "w" [] rfl).2,
   ((claim_C7_amended _).2.2 rfl).1⟩

/-- Claim C9: whenever `parseDesignIntent` returns a StructuredDesign, the
design's metadata.units is the literal `mm` — even when the prompt names a
different unit — and the unit extracted from the prompt is recorded (only)
in the primitive's parameters map. -/
theorem claim_C9 (newId nowIso : String) (intent : DesignIntent) (design : StructuredDesign)
    (h : parseDesignIntent newId nowIso intent = .inl design) :
    design.metadata.units = "mm" ∧
    ∀ p ∈ design.primitives,
      lookupParam p.parameters "unit" =
        some (.str (match extractDimension (lowerStr intent.prompt) with
                    | some (_, some u) => u
                    | _ => "mm")) := by
  unfold parseDesignIntent at h
  by_cases c1 : (containsSub (lowerStr intent.prompt) "cube"
      || containsSub (lowerStr intent.prompt) "box") = true
  · rw [if_pos c1] at h
    have hd := Sum.inl.inj h
    subst hd
    refine ⟨rfl, ?_⟩
    intro p hp
    simp only [List.mem_singleton] at hp
    subst hp
    rfl
  · rw [if_neg c1] at h
    by_cases c2 : containsSub (lowerStr intent.prompt) "sphere" = true
    · rw [if_pos c2] at h
      have hd := Sum.inl.inj h
      subst hd
      refine ⟨rfl, ?_⟩
      intro p hp
      simp only [List.mem_singleton] at hp
      subst hp
      rfl
    · rw [if_neg c2] at h
      by_cases c3 : containsSub (lowerStr intent.prompt) "cylinder" = true
      · rw [if_pos c3] at h
        have hd := Sum.inl.inj h
        subst hd
        refine ⟨rfl, ?_⟩
        intro p hp
        simp only [List.mem_singleton] at hp
        subst hp
        rfl
      · rw [if_neg c3] at h
        cases h

/-- Concrete instance of C9: a cube prompt carrying the unit `cm` still
gets metadata.units `mm`, with `cm` recorded in the parameters map. -/
theorem claim_C9_witness :
    ∃ d, parseDesignIntent "shape_w1" "ts" { prompt := "cube 12cm", contextId := "c" } = Sum.inl d
      ∧ d.metadata.units = "mm"
      ∧ ∀ p ∈ d.primitives, lookupParam p.parameters "unit" = some (.str "cm") := by
  obtain ⟨h1, h2⟩ :=
    claim_C9 "shape_w1" "ts" { prompt := "cube 12cm", contextId := "c" } _ rfl
  exact ⟨_, rfl, h1, fun p hp => h2 p hp⟩

/-- Claim C3: whenever the lower-cased prompt is shorter than 5 characters,
or contains no digit, or contains no shape keyword, `needsClarification` is
true, the pipeline returns the clarification feedback whose suggested
actions are exactly the generated questions, and the questions are exactly
the shape question iff no keyword is present followed by the dimension
question iff no digit is present. -/
theorem claim_C3 (newId nowIso : String) (intent : DesignIntent)
    (h : (lowerStr intent.prompt).length < 5
        ∨ (lowerStr intent.prompt).data.any Char.isDigit = false
        ∨ shapeKeywords.any (fun k => containsSub (lowerStr intent.prompt) k) = false) :
    needsClarification intent = true ∧
    processDesignIntent newId nowIso intent =
      { structuredDesign := none, script := none, executionResult := none,
        feedback :=
          { status := "clarification",
            message := "Your design intent needs more details.",
            details := some "Please provide additional information to create your model.",
            suggestedActions := some ((generateClarificationQuestions intent).map
              (fun q => { type := "clarify", description := q })) } } ∧
    generateClarificationQuestions intent =
      (if shapeKeywords.any (fun k => containsSub (lowerStr intent.prompt) k) then []
       else [shapeQuestion])
      ++ (if (lowerStr intent.prompt).data.any Char.isDigit then [] else [dimensionQuestion]) := by
  have h1 : needsClarification intent = true := by
    unfold needsClarification
    by_cases hlen : (lowerStr intent.prompt).length < 5
    · rw [if_pos hlen]
    · rw [if_neg hlen]
      by_cases hkw : shapeKeywords.any (fun k => containsSub (lowerStr intent.prompt) k) = true
      · rw [hkw]
        show (if (!true) = true then true else !(lowerStr intent.prompt).data.any Char.isDigit)
          = true
        rw [if_neg (by decide)]
        rcases h with h | h | h
        · exact absurd h hlen
        · rw [h]; rfl
        · rw [h] at hkw; cases hkw
      · have hkw2 : shapeKeywords.any (fun k => containsSub (lowerStr intent.prompt) k) = false :=
          Bool.eq_false_iff.mpr hkw
        rw [hkw2]
        rfl
  refine ⟨h1, ?_, ?_⟩
  · unfold processDesignIntent processDesignIntentWith pipelineCore mcpStages
    simp only [Bind.bind, Except.bind, h1, if_true, pure, Except.pure]
  · unfold generateClarificationQuestions
    by_cases hkw : shapeKeywords.any (fun k => containsSub (lowerStr intent.prompt) k) = true
    · by_cases hdg : (lowerStr intent.prompt).data.any Char.isDigit = true
      · simp [hkw, hdg]
      · simp [hkw, Bool.eq_false_iff.mpr hdg]
    · by_cases hdg : (lowerStr intent.prompt).data.any Char.isDigit = true
      · simp [Bool.eq_false_iff.mpr hkw, hdg]
      · simp [Bool.eq_false_iff.mpr hkw, Bool.eq_false_iff.mpr hdg]

/-- Concrete instance of C3: the prompt `hello` (no digit, no shape
keyword). -/
theorem claim_C3_witness :
    needsClarification { prompt := "hello", contextId := "c" } = true ∧
    processDesignIntent "i" "t" { prompt := "hello", contextId := "c" } =
      { structuredDesign := none, script := none, executionResult := none,
        feedback :=
          { status := "clarification",
            message := "Your design intent needs more details.",
            details := some "Please provide additional information to create your model.",
            suggestedActions := some ((generateClarificationQuestions
                { prompt := "hello", contextId := "c" }).map
              (fun q => { type := "clarify", description := q })) } } ∧
    generateClarificationQuestions { prompt := "hello", contextId := "c" } =
      (if shapeKeywords.any (fun k =>
            containsSub (lowerStr ({ prompt := "hello", contextId := "c" } : DesignIntent).prompt) k)
        then [] else [shapeQuestion])
      ++ (if (lowerStr ({ prompt := "hello", contextId := "c" } : DesignIntent).prompt).data.any
            Char.isDigit then [] else [dimensionQuestion]) :=
  claim_C3 "i" "t" { prompt := "hello", contextId := "c" } (Or.inr (Or.inl (by decide)))

/-- Claim C4: the script text is the newline-join of the generated line
list, whose primitive-creation statements are exactly (and in order) one
per primitive of the design, and whose operation statements are exactly
(and in order) one per operation — stated for designs with well-formed
generated identifiers. -/
theorem claim_C4 (design : StructuredDesign) (h : wfDesign design = true) :
    (generateFreeCADCode design).code = joinSep "\n" (generatedCodeLines design) ∧
    (generatedCodeLines design).filter isCreationStmt = design.primitives.map creationStmt ∧
    (generatedCodeLines design).filter isOpStmt = design.operations.map opStmt ∧
    ((generatedCodeLines design).filter isCreationStmt).length = design.primitives.length ∧
    ((generatedCodeLines design).filter isOpStmt).length = design.operations.length := by
  refine ⟨rfl, filter_creation_eq design h, filter_op_eq design h, ?_, ?_⟩
  · rw [filter_creation_eq design h, List.length_map]
  · rw [filter_op_eq design h, List.length_map]

/-- Concrete instance of C4: two primitives and two operations. -/
theorem claim_C4_witness :
    (generatedCodeLines
        { primitives :=
            [⟨"shape_a1", .cube, [("length", .num 2), ("width", .num 3), ("height", .num 4)],
              none, some ⟨90, 0, 0⟩⟩,
             ⟨"shape_b2", .sphere, [("radius", .num 5)], some ⟨1, 2, 3⟩, none⟩],
          operations :=
            [⟨.union, ["shape_a1", "shape_b2"], none⟩,
             ⟨.fillet, ["shape_a1"], some [("radius", .num 0)]⟩],
          metadata := ⟨"My Part.design", "d", "a", "t", "mm"⟩ }).filter isCreationStmt =
      [creationStmt ⟨"shape_a1", .cube,
          [("length", .num 2), ("width", .num 3), ("height", .num 4)], none, some ⟨90, 0, 0⟩⟩,
       creationStmt ⟨"shape_b2", .sphere, [("radius", .num 5)], some ⟨1, 2, 3⟩, none⟩] ∧
    (generatedCodeLines
        { primitives :=
            [⟨"shape_a1", .cube, [("length", .num 2), ("width", .num 3), ("height", .num 4)],
              none, some ⟨90, 0, 0⟩⟩,
             ⟨"shape_b2", .sphere, [("radius", .num 5)], some ⟨1, 2, 3⟩, none⟩],
          operations :=
            [⟨.union, ["shape_a1", "shape_b2"], none⟩,
             ⟨.fillet, ["shape_a1"], some [("radius", .num 0)]⟩],
          metadata := ⟨"My Part.design", "d", "a", "t", "mm"⟩ }).filter isOpStmt =
      [opStmt ⟨.union, ["shape_a1", "shape_b2"], none⟩,
       opStmt ⟨.fillet, ["shape_a1"], some [("radius", .num 0)]⟩] :=
  ⟨(claim_C4 _ (by decide)).2.1, (claim_C4 _ (by decide)).2.2.1⟩

theorem pipelineCore_shape {S : Stages} {intent : DesignIntent} {r : MCPResult}
    (h : pipelineCore S intent = .ok r) :
    (r.structuredDesign = none ∧ r.script = none ∧ r.executionResult = none) ∨
    (∃ d s, r.structuredDesign = some d ∧ r.script = some s ∧ r.executionResult = none) ∨
    (∃ d s er, r.structuredDesign = some d ∧ r.script = some s ∧ r.executionResult = some er) := by
  unfold pipelineCore at h
  cases h1 : S.needsClar intent with
  | error e => rw [h1] at h; simp [Bind.bind, Except.bind] at h
  | ok nc =>
    rw [h1] at h
    simp only [Bind.bind, Except.bind] at h
    cases nc with
    | true =>
      simp only [if_true] at h
      cases h2 : S.clarQuestions intent with
      | error e => rw [h2] at h; simp at h
      | ok qs =>
        rw [h2] at h
        simp only [pure, Except.pure, Except.ok.injEq] at h
        subst h
        exact Or.inl ⟨rfl, rfl, rfl⟩
    | false =>
      simp only [Bool.false_eq_true, if_false] at h
      cases h3 : S.parse intent with
      | error e => rw [h3] at h; simp at h
      | ok parsed =>
        rw [h3] at h
        simp only at h
        cases parsed with
        | inr fb =>
          simp only [pure, Except.pure, Except.ok.injEq] at h
          subst h
          exact Or.inl ⟨rfl, rfl, rfl⟩
        | inl design =>
          simp only at h
          cases h4 : S.gen design with
          | error e => rw [h4] at h; simp at h
          | ok script =>
            rw [h4] at h
            simp only at h
            cases h5 : S.validate script with
            | error e => rw [h5] at h; simp at h
            | ok ok =>
              rw [h5] at h
              simp only at h
              cases ok with
              | false =>
                simp only [Bool.not_false, if_true, pure, Except.pure, Except.ok.injEq] at h
                subst h
                exact Or.inr (Or.inl ⟨design, script, rfl, rfl, rfl⟩)
              | true =>
                simp only [Bool.not_true, Bool.false_eq_true, if_false] at h
                cases h6 : S.exec script with
                | error e => rw [h6] at h; simp at h
                | ok er =>
                  rw [h6] at h
                  simp only at h
                  cases h7 : S.fb er with
                  | error e => rw [h7] at h; simp at h
                  | ok fb =>
                    rw [h7] at h
                    simp only [pure, Except.pure, Except.ok.injEq] at h
                    subst h
                    exact Or.inr (Or.inr ⟨design, script, er, rfl, rfl, rfl⟩)

/-- Claim C2: the orchestrator's payload always carries `feedback` (it is a
non-optional field of `MCPResult`); any stage exception is caught at the
orchestrator boundary and converted into the generic error feedback with
the regenerate-with-simpler-input suggestion, never propagated; and the
optional payload fields are present only as far as the pipeline progressed
(an execution result implies a script, a script implies a structured
design, and an error payload carries none of them). -/
theorem claim_C2 (S : Stages) (intent : DesignIntent) :
    (∀ e, pipelineCore S intent = .error e →
        processDesignIntentWith S intent =
          { structuredDesign := none, script := none, executionResult := none,
            feedback :=
              { status := "error",
                message := "An unexpected error occurred while processing your design.",
                details := some e,
                suggestedActions := some [{ type := "regenerate",
                                            description := "Try again with a simpler design" }] } }) ∧
    ((processDesignIntentWith S intent).script.isSome →
        (processDesignIntentWith S intent).structuredDesign.isSome) ∧
    ((processDesignIntentWith S intent).executionResult.isSome →
        (processDesignIntentWith S intent).script.isSome) := by
  refine ⟨?_, ?_, ?_⟩
  · intro e he
    unfold processDesignIntentWith
    rw [he]
    rfl
  · unfold processDesignIntentWith
    cases hcore : pipelineCore S intent with
    | error e => simp
    | ok r =>
      rcases pipelineCore_shape hcore with ⟨ha, hb, hc⟩ | ⟨d, s, ha, hb, hc⟩
          | ⟨d, s, er, ha, hb, hc⟩ <;> simp [ha, hb, hc]
  · unfold processDesignIntentWith
    cases hcore : pipelineCore S intent with
    | error e => simp
    | ok r =>
      rcases pipelineCore_shape hcore with ⟨ha, hb, hc⟩ | ⟨d, s, ha, hb, hc⟩
          | ⟨d, s, er, ha, hb, hc⟩ <;> simp [ha, hb, hc]

/-- Concrete instance of C2: a throwing parse stage is converted into the
generic regenerate feedback with an otherwise empty payload. -/
theorem claim_C2_witness :
    processDesignIntentWith
      { needsClar := fun _ => .ok false,
        clarQuestions := fun _ => .ok [],
        parse := fun _ => .error "boom",
        gen := fun d => .ok (generateFreeCADCode d),
        validate := fun s => .ok (validateScriptSafety s),
        exec := fun s => .ok (executeScript s),
        fb := fun r => .ok (generateUserFeedback r) }
      { prompt := "a cube 10mm", contextId := "c" } =
      { structuredDesign := none, script := none, executionResult := none,
        feedback :=
          { status := "error",
            message := "An unexpected error occurred while processing your design.",
            details := some "boom",
            suggestedActions := some [{ type := "regenerate",
                                        description := "Try again with a simpler design" }] } } :=
  (claim_C2 _ _).1 "boom" rfl

end MCP
